import Mathlib

/-!
Verification development for the cronolize program
(src/cmd/cronolize/cronolize.go): a shallow embedding of its `main`
control flow, its per-fire closure, and — for the parts delegated to the
external cron library — models of the recurrence engine and the scheduler
loop as described by the specification.
-/

namespace Cronolize

/-- Value of the `version` variable in the source. -/
def version : String := "0"

/-- Name-value expected in the internal relaunch marker variable
(`envVarValueExpected` in the source). -/
def envVarValueExpected : String := "INSTANTIATED"

/-- How one of the three standard streams of a spawned process is attached:
to the corresponding stream of the current process (`inherit`, e.g.
`cmd.Stdin = os.Stdin`), or to the null device (`null`, the effect of
leaving the `exec.Cmd` field `nil`). -/
inductive StreamAttach where
  | inherit
  | null
deriving DecidableEq, Repr

/-- The open(2) flag set used for the log file.  The source uses
`os.O_WRONLY|os.O_CREATE|os.O_APPEND` plus `os.O_TRUNC` when `-truncate`
is given. -/
structure OpenFlags where
  wronly : Bool
  create : Bool
  append : Bool
  trunc : Bool
deriving DecidableEq, Repr

/-- Flag computation of the log-section of `main` (lines 173-178 of the
source): truncate selects `O_WRONLY|O_CREATE|O_APPEND|O_TRUNC`, otherwise
`O_WRONLY|O_CREATE|O_APPEND`. -/
def openFlagsFor (truncateLog : Bool) : OpenFlags :=
  if truncateLog then
    { wronly := true, create := true, append := true, trunc := true }
  else
    { wronly := true, create := true, append := true, trunc := false }

/-- The parsed command line of one invocation: flag values, whether the
`-log` and `-fg` flags were explicitly passed (`flag.CommandLine.Visit`),
the positional arguments (`flag.Args()`), the program path (`os.Args[0]`)
and the raw argument vector tail (`os.Args[1:]`).  `envMarker` is the
value of the `__CRONOLIZER__` variable in the inherited environment
(`none` when unset). -/
structure Cfg where
  envMarker : Option String
  logfile : String
  shell : String
  shellCommandOption : String
  truncateLog : Bool
  quiet : Bool
  foreground : Bool
  hasLogFlag : Bool
  hasForegroundFlag : Bool
  args : List String
  argv0 : String
  osArgs : List String
deriving DecidableEq, Repr

/-- Result of `filepath.EvalSymlinks`: success with the resolved path, a
does-not-exist error (`fs.ErrNotExist`), or any other error. -/
inductive PathEval where
  | resolved (p : String)
  | notExist
  | failed (msg : String)
deriving DecidableEq, Repr

/-- The external collaborators `main` calls into, with the results they
return on this run: `filepath.Clean`, `filepath.EvalSymlinks`,
`os.OpenFile`, the cron library parse performed inside `c.AddFunc`,
`os.Setenv`, and `(*exec.Cmd).Start` for the relaunch (returning the
child PID on success). -/
structure World where
  cleanPath : String → String
  evalSymlinks : String → PathEval
  openFile : String → OpenFlags → Except String Unit
  parseSpec : String → Except String Unit
  setenvResult : Except String Unit
  startChild : Except String Nat

/-- The relaunch child spawned at lines 239-243 of the source: program
path, argument vector, whether the marker variable is in its inherited
environment, the attachment of its three standard streams, and whether
the parent waits for it. -/
structure ChildSpawn where
  argv0 : String
  args : List String
  envMarker : Option String
  stdin : StreamAttach
  stdout : StreamAttach
  stderr : StreamAttach
  waited : Bool
deriving DecidableEq, Repr

/-- Observable outcome of one run of `main` up to (and excluding) the
blocking loop: the exit status if the process exits (`none` when it
blocks forever), lines printed to standard error and standard output,
whether the log-file section was entered, the flags of the attempted
log-file open (`none` when no open was attempted), whether the opened
file was closed again before the relaunch, whether standard output and
error were redirected to it, whether the cron entry was registered,
whether the blocking phase was entered, the spawned relaunch child if
any, the marker variable value right after the startup lookup-and-unset,
and its value at the end of the modelled steps. -/
structure Outcome where
  exitCode : Option Nat
  stderrLines : List String
  stdoutLines : List String
  logSectionEntered : Bool
  fileOpenFlags : Option OpenFlags
  fileClosedBeforeRelaunch : Bool
  redirectedToLog : Bool
  scheduled : Bool
  blocking : Bool
  child : Option ChildSpawn
  envAfterStartup : Option String
  envFinal : Option String
deriving DecidableEq, Repr

/-- Lines 117-122 of the source: the process is the cron (second-phase)
instance iff the marker variable is set and holds the expected value. -/
def markerIndicatesCron (v : Option String) : Bool :=
  match v with
  | some stage => stage == envVarValueExpected
  | none => false

/-- Lines 123-125 of the source: if the marker variable was set (to any
value) it is unset; otherwise the environment is left as is. -/
def envAfterLookup (v : Option String) : Option String :=
  if v.isSome then none else v

/-- Diagnostic line produced by `fatal`: the message prefixed with
`Error:` and a space. -/
def fatalLine (msg : String) : String := "Error: " ++ msg

/-- Diagnostic line produced by `fatalf` on the `-log`/`-fg` combination
(line 158 of the source). -/
def combineErrMsg : String :=
  "Syntax error: you can not combine the -log and the -fg option."

/-- Stand-in for the text `flag.Usage()` renders to standard error; flag
help rendering is an external collaborator, only its presence on the
usage path matters here. -/
def flagUsageText : String := "(flag usage text)"

/-- The multi-line `helpMsg` constant of the source (content abbreviated;
no claim depends on its text, only on its presence on the usage path). -/
def helpMsg : String :=
  "cronSpec is a five field CRON expression. command is the command string to execute via /bin/sh -c (by default)."

/-- The sequence of chunks printed to standard error on the
wrong-argument-count usage path (lines 136-144 of the source): welcome
line, blank, syntax line, blank, flag usage, help text. -/
def usageHelpLines (argv0 : String) : List String :=
  ["Welcome to cronolize " ++ version ++ " (C) 2022 SA6MWA https://github.com/sa6mwa/cronolizer",
   "",
   "Syntax: " ++ argv0 ++ " [options] cronSpec command",
   "",
   flagUsageText,
   helpMsg]

/-- The PID announcement printed on the relaunch path unless `-q` is
given (line 248 of the source). -/
def pidLine (pid : Nat) : String := "Running cron job as PID " ++ toString pid

/-- Result of the log-file section of `main` (lines 161-191): skipped in
foreground mode, fatal on a path-resolution error other than
does-not-exist, fatal on an open error (recording the flags of the
attempt), or an open file (recording flags and resolved path). -/
inductive LogSectionResult where
  | skipped
  | fatalPath (msg : String)
  | fatalOpen (flags : OpenFlags) (msg : String)
  | opened (flags : OpenFlags) (path : String)
deriving DecidableEq, Repr

/-- Whether a `PathEval` is the fatal (non-does-not-exist) error case. -/
def PathEval.isFailed : PathEval → Bool
  | .failed _ => true
  | _ => false

/-- The log-file section of `main` (lines 161-191 of the source, the
redirect/close decision lifted to `mainBody`): clean the `-log` path,
resolve symlinks (a does-not-exist error falls back to the cleaned path,
any other error is fatal), then open with the flags selected by
`-truncate`. -/
def logSection (w : World) (cfg : Cfg) : LogSectionResult :=
  if cfg.foreground then .skipped
  else
    let cleanedPath := w.cleanPath cfg.logfile
    let pathRes : Except String String :=
      match w.evalSymlinks cleanedPath with
      | .failed msg => .error msg
      | .notExist => .ok cleanedPath
      | .resolved p => .ok p
    match pathRes with
    | .error msg => .fatalPath msg
    | .ok evaluatedPath =>
      let flags := openFlagsFor cfg.truncateLog
      match w.openFile evaluatedPath flags with
      | .error msg => .fatalOpen flags msg
      | .ok _ => .opened flags evaluatedPath

/-- Outcome with nothing observed yet beyond the startup environment
handling. -/
def baseOutcome (env1 : Option String) : Outcome :=
  { exitCode := none, stderrLines := [], stdoutLines := [],
    logSectionEntered := false, fileOpenFlags := none,
    fileClosedBeforeRelaunch := false, redirectedToLog := false,
    scheduled := false, blocking := false, child := none,
    envAfterStartup := env1, envFinal := env1 }

/-- The body of `main` after the startup environment handling (lines
127-249 of the source), parameterised by the already-decided
`isCronProcess` and the environment marker value `env1` left after the
lookup-and-unset: argument-count check, `-log`/`-fg` exclusion check,
log-file section, `c.AddFunc` (whose parse error is fatal), then either
the blocking phase (`isCronProcess || foreground`) or the
set-marker-and-relaunch tail. -/
def mainBody (w : World) (cfg : Cfg) (isCronProcess : Bool)
    (env1 : Option String) : Outcome :=
  let base := baseOutcome env1
  if cfg.args.length ≠ 2 then
    { base with exitCode := some 1, stderrLines := usageHelpLines cfg.argv0 }
  else if cfg.hasLogFlag && cfg.hasForegroundFlag then
    { base with exitCode := some 1, stderrLines := [combineErrMsg] }
  else
    let base1 := { base with logSectionEntered := !cfg.foreground }
    match logSection w cfg with
    | .fatalPath msg =>
      { base1 with exitCode := some 1, stderrLines := [fatalLine msg] }
    | .fatalOpen flags msg =>
      { base1 with
          exitCode := some 1
          stderrLines := [fatalLine msg]
          fileOpenFlags := some flags }
    | rest =>
      let base2 :=
        match rest with
        | .opened flags _ =>
          { base1 with
              fileOpenFlags := some flags
              redirectedToLog := isCronProcess
              fileClosedBeforeRelaunch := !isCronProcess }
        | _ => base1
      match w.parseSpec (cfg.args.headD "") with
      | .error msg =>
        { base2 with exitCode := some 1, stderrLines := [fatalLine msg] }
      | .ok _ =>
        let base3 := { base2 with scheduled := true }
        if isCronProcess || cfg.foreground then
          { base3 with blocking := true }
        else
          match w.setenvResult with
          | .error msg =>
            { base3 with exitCode := some 1, stderrLines := [fatalLine msg] }
          | .ok _ =>
            let env2 : Option String := some envVarValueExpected
            match w.startChild with
            | .error msg =>
              { base3 with
                  exitCode := some 1
                  stderrLines := [fatalLine msg]
                  envFinal := env2 }
            | .ok pid =>
              { base3 with
                  exitCode := some 0
                  envFinal := env2
                  child := some { argv0 := cfg.argv0
                                  args := cfg.osArgs
                                  envMarker := env2
                                  stdin := .null
                                  stdout := .null
                                  stderr := .null
                                  waited := false }
                  stdoutLines := if cfg.quiet then [] else [pidLine pid] }

/-- `main` (lines 114-249 of the source): look up and clear the marker
variable, then run the body. -/
def runMain (w : World) (cfg : Cfg) : Outcome :=
  mainBody w cfg (markerIndicatesCron cfg.envMarker)
    (envAfterLookup cfg.envMarker)

/-- Observable behaviour of one execution of the `AddFunc` closure: the
`log.Printf` lines, the argument vector handed to `exec.Command`, the
attachment of the three standard streams, the standard-error diagnostic
lines, and the exit status if the closure terminates the process. -/
structure FireOutcome where
  logLines : List String
  cmdArgv : List String
  cmdStdin : StreamAttach
  cmdStdout : StreamAttach
  cmdStderr : StreamAttach
  stderrLines : List String
  exitCode : Option Nat
deriving DecidableEq, Repr

/-- The `AddFunc` closure (lines 194-218 of the source), with the result
of `cmd.Run()` supplied as `runResult` (an error covers both a spawn
failure and a non-zero exit): build the argument vector from `-shell`,
`-shellCommandOption` and the command string, log a `Running:` line
unless `-q`, attach stdin to the scheduler process's own stdin when not
in foreground mode and to the null device otherwise, attach stdout and
stderr to the scheduler process's own streams, run, and call `fatal` on
a run error. -/
def onFire (cfg : Cfg) (runResult : Except String Unit) : FireOutcome :=
  let cmdArgv :=
    if cfg.shellCommandOption.length ≠ 0 then
      [cfg.shell, cfg.shellCommandOption, cfg.args.getD 1 ""]
    else
      [cfg.shell, cfg.args.getD 1 ""]
  let logLines :=
    if !cfg.quiet then ["Running: " ++ String.intercalate " " cmdArgv] else []
  let cmdStdin := if !cfg.foreground then StreamAttach.inherit else StreamAttach.null
  match runResult with
  | .error msg =>
    { logLines := logLines
      cmdArgv := cmdArgv
      cmdStdin := cmdStdin
      cmdStdout := .inherit
      cmdStderr := .inherit
      stderrLines := [fatalLine msg]
      exitCode := some 1 }
  | .ok _ =>
    { logLines := logLines
      cmdArgv := cmdArgv
      cmdStdin := cmdStdin
      cmdStdout := .inherit
      cmdStderr := .inherit
      stderrLines := []
      exitCode := none }

/-- Modelled from the spec: the parsed representation of a five-field
recurrence expression (the cron library holding the parser is not under
src/).  Each field is a set of accepted values or a wildcard (`none`);
spec section 3: minute 0-59, hour 0-23, day-of-month 1-31, month 1-12,
day-of-week 0-6, with day-of-month and day-of-week OR-ed when both are
restricted. -/
structure RecurrenceSpec where
  minute : Option (List Nat)
  hour : Option (List Nat)
  dom : Option (List Nat)
  month : Option (List Nat)
  dow : Option (List Nat)
deriving DecidableEq, Repr

/-- The wall-clock fields of an instant: minute, hour, day-of-month,
month, and day-of-week (0 = Sunday). -/
structure TimeFields where
  minute : Nat
  hour : Nat
  dom : Nat
  month : Nat
  dow : Nat
deriving DecidableEq, Repr

/-- Civil date (year, month, day) of a day count since 1970-01-01,
by the standard era decomposition of the proleptic Gregorian calendar. -/
def civilFromDays (z : Nat) : Nat × Nat × Nat :=
  let zz := z + 719468
  let era := zz / 146097
  let doe := zz % 146097
  let yoe := (doe - doe / 1460 + doe / 36524 - doe / 146096) / 365
  let y := yoe + era * 400
  let doy := doe - (365 * yoe + yoe / 4 - yoe / 100)
  let mp := (5 * doy + 2) / 153
  let d := doy - (153 * mp + 2) / 5 + 1
  let m := if mp < 10 then mp + 3 else mp - 9
  (if m ≤ 2 then y + 1 else y, m, d)

/-- Wall-clock fields of an instant given as minutes since the epoch
1970-01-01 00:00 (which was a Thursday, hence the day-of-week offset 4
with 0 = Sunday). -/
def minutesToFields (t : Nat) : TimeFields :=
  let days := t / 1440
  let c := civilFromDays days
  { minute := t % 60
    hour := t / 60 % 24
    dom := c.2.2
    month := c.2.1
    dow := (days + 4) % 7 }

/-- Whether a field value is accepted by a (possibly wildcard) field
set. -/
def fieldMatches : Option (List Nat) → Nat → Bool
  | none, _ => true
  | some vs, x => vs.contains x

/-- Modelled from the spec: whether an instant's fields satisfy a parsed
recurrence expression, testing minute, hour and month conjunctively and
applying the day-of-month/day-of-week OR-rule when both are restricted
(spec sections 3 and 4.1). -/
def matchesFields (s : RecurrenceSpec) (f : TimeFields) : Bool :=
  fieldMatches s.minute f.minute && fieldMatches s.hour f.hour &&
    fieldMatches s.month f.month &&
    (match s.dom, s.dow with
     | some ds, some ws => ds.contains f.dom || ws.contains f.dow
     | _, _ => fieldMatches s.dom f.dom && fieldMatches s.dow f.dow)

/-- Whether the instant `t` (minutes since the epoch) matches the
recurrence expression. -/
def matchesInstant (s : RecurrenceSpec) (t : Nat) : Bool :=
  matchesFields s (minutesToFields t)

/-- Modelled from the spec: the bounded search horizon of the next-fire
scan, about four future years of minutes (spec section 4.1). -/
def searchLimitMinutes : Nat := 4 * 366 * 24 * 60

/-- Minute-by-minute forward scan: test `t+1`, `t+2`, ... for at most
`fuel` steps and return the first matching instant. -/
def nextAux (s : RecurrenceSpec) (t : Nat) : Nat → Option Nat
  | 0 => none
  | fuel + 1 =>
    if matchesInstant s (t + 1) then some (t + 1)
    else nextAux s (t + 1) fuel

/-- Modelled from the spec: `next(spec, after)` of the recurrence engine
(the cron library is not under src/) — starting from the reference
instant truncated to minute resolution, scan forward minute by minute
within the bounded horizon and return the first matching instant, or
`none` when the horizon is exhausted (spec section 4.1). -/
def nextInstant (s : RecurrenceSpec) (t : Nat) : Option Nat :=
  nextAux s t searchLimitMinutes

/-- Modelled from the spec: the trace of the scheduler loop (spec
section 4.2; the cron library's run loop is not under src/).  Given the
next-fire function, the duration of each invocation and the start
instant, `loopTrace … n` is the pair (start instant, return instant) of
the n-th invocation: the loop computes the next fire time only after the
previous invocation has returned. -/
def loopTrace (next : Nat → Nat) (dur : Nat → Nat) (t0 : Nat) : Nat → Nat × Nat
  | 0 => (next t0, next t0 + dur 0)
  | n + 1 =>
    let e := (loopTrace next dur t0 n).2
    (next e, next e + dur (n + 1))

/-! ### Concrete worlds and configurations used to exercise the theorems -/

/-- A world in which every external call succeeds: paths clean to
themselves, the log path does not yet exist, the open succeeds, the cron
expression parses, `Setenv` succeeds and the relaunch child starts with
PID 4242. -/
def wAny : World :=
  { cleanPath := fun p => p
    evalSymlinks := fun _ => .notExist
    openFile := fun _ _ => .ok ()
    parseSpec := fun _ => .ok ()
    setenvResult := .ok ()
    startChild := .ok 4242 }

/-- A world identical to `wAny` except that the cron expression fails to
parse. -/
def wParseErr : World := { wAny with parseSpec := fun _ => .error "bad spec" }

/-- A world identical to `wAny` except that opening the log file fails. -/
def wOpenErr : World := { wAny with openFile := fun _ _ => .error "open failed" }

/-- A first-phase background invocation: no marker, no `-fg`, two
positional arguments. -/
def cfgRelaunch : Cfg :=
  { envMarker := none
    logfile := "/dev/null"
    shell := "/bin/sh"
    shellCommandOption := "-c"
    truncateLog := false
    quiet := false
    foreground := false
    hasLogFlag := false
    hasForegroundFlag := false
    args := ["* * * * *", "echo hi"]
    argv0 := "cronolize"
    osArgs := ["* * * * *", "echo hi"] }

/-- The relaunched (second-phase) invocation: like `cfgRelaunch` but with
the marker variable set to the expected value. -/
def cfgCron : Cfg := { cfgRelaunch with envMarker := some envVarValueExpected }

/-- A foreground invocation. -/
def cfgForegroundRun : Cfg :=
  { cfgRelaunch with foreground := true, hasForegroundFlag := true }

/-- An invocation with no positional arguments at all. -/
def cfgNoArgs : Cfg := { cfgRelaunch with args := [], osArgs := [] }

/-- An invocation passing both `-log` and `-fg`. -/
def cfgBothFlags : Cfg :=
  { cfgRelaunch with
      foreground := true
      hasForegroundFlag := true
      hasLogFlag := true
      logfile := "/tmp/x.log"
      osArgs := ["-fg", "-log", "/tmp/x.log", "* * * * *", "echo hi"] }

/-! ### Helper lemmas about the embedded `main` -/

/-- The startup lookup-and-unset leaves the marker variable unset
whatever its incoming value was. -/
theorem envAfterLookup_none (v : Option String) : envAfterLookup v = none := by
  cases v <;> simp [envAfterLookup]

/-- `mainBody` never changes the recorded post-startup marker value. -/
theorem mainBody_envAfterStartup (w : World) (cfg : Cfg) (b : Bool)
    (e : Option String) : (mainBody w cfg b e).envAfterStartup = e := by
  simp only [mainBody]
  repeat' split
  all_goals simp [baseOutcome]

/-- If `mainBody` reaches the blocking phase, the marker variable still
has its post-startup value. -/
theorem mainBody_blocking_envFinal (w : World) (cfg : Cfg) (b : Bool)
    (e : Option String) :
    (mainBody w cfg b e).blocking = true → (mainBody w cfg b e).envFinal = e := by
  simp only [mainBody]
  repeat' split
  all_goals simp [baseOutcome]

/-- The only child `mainBody` ever spawns is the detached relaunch child:
same program path, same raw arguments, marker in its environment, all
three standard streams on the null device, not waited for. -/
theorem mainBody_child_spec (w : World) (cfg : Cfg) (b : Bool)
    (e : Option String) (ch : ChildSpawn) :
    (mainBody w cfg b e).child = some ch →
    ch = { argv0 := cfg.argv0, args := cfg.osArgs,
           envMarker := some envVarValueExpected, stdin := .null,
           stdout := .null, stderr := .null, waited := false } ∧
    (mainBody w cfg b e).envFinal = some envVarValueExpected := by
  simp only [mainBody]
  repeat' split
  all_goals intro h
  all_goals try simp_all [baseOutcome]

/-- Any `mainBody` run that exits with status 1 never entered the
blocking phase. -/
theorem mainBody_exit1_not_blocking (w : World) (cfg : Cfg) (b : Bool)
    (e : Option String) :
    (mainBody w cfg b e).exitCode = some 1 →
    (mainBody w cfg b e).blocking = false := by
  simp only [mainBody]
  repeat' split
  all_goals simp [baseOutcome]

/-- When the log-file section is reached (background mode) and path
resolution does not fail fatally, the open is attempted with exactly the
flags selected by `-truncate`. -/
theorem logSection_flags (w : World) (cfg : Cfg)
    (hFg : cfg.foreground = false)
    (hE : (w.evalSymlinks (w.cleanPath cfg.logfile)).isFailed = false) :
    (∃ msg, logSection w cfg
        = .fatalOpen (openFlagsFor cfg.truncateLog) msg) ∨
    (∃ p, logSection w cfg = .opened (openFlagsFor cfg.truncateLog) p) := by
  simp only [logSection, hFg]
  cases hev : w.evalSymlinks (w.cleanPath cfg.logfile) with
  | failed msg => simp [hev, PathEval.isFailed] at hE
  | notExist =>
    cases ho : w.openFile (w.cleanPath cfg.logfile) (openFlagsFor cfg.truncateLog) with
    | error msg => exact Or.inl ⟨msg, by simp [ho]⟩
    | ok _ => exact Or.inr ⟨w.cleanPath cfg.logfile, by simp [ho]⟩
  | resolved p =>
    cases ho : w.openFile p (openFlagsFor cfg.truncateLog) with
    | error msg => exact Or.inl ⟨msg, by simp [ho]⟩
    | ok _ => exact Or.inr ⟨p, by simp [ho]⟩

/-- In background mode, whenever the log section is reached and path
resolution does not fail, the recorded open attempt carries the flags
selected by `-truncate` — whatever phase (`b`) the process is in and
however the run continues. -/
theorem mainBody_openflags (w : World) (cfg : Cfg) (b : Bool)
    (e : Option String)
    (hA : cfg.args.length = 2)
    (hB : (cfg.hasLogFlag && cfg.hasForegroundFlag) = false)
    (hFg : cfg.foreground = false)
    (hE : (w.evalSymlinks (w.cleanPath cfg.logfile)).isFailed = false) :
    (mainBody w cfg b e).fileOpenFlags = some (openFlagsFor cfg.truncateLog) := by
  rcases logSection_flags w cfg hFg hE with ⟨msg, hLS⟩ | ⟨p, hLS⟩ <;>
  · simp only [mainBody, hA, hB, hLS]
    repeat' split
    all_goals simp_all [baseOutcome]

/-- Each invocation in the loop trace starts no later than it returns. -/
theorem loopTrace_start_le_end (next dur : Nat → Nat) (t0 n : Nat) :
    (loopTrace next dur t0 n).1 ≤ (loopTrace next dur t0 n).2 := by
  cases n <;> simp [loopTrace]

/-- Each invocation in the loop trace returns strictly before the next
one starts, because the next fire time is computed from the return
instant. -/
theorem loopTrace_end_lt_start (next dur : Nat → Nat) (t0 : Nat)
    (hnext : ∀ t, t < next t) (n : Nat) :
    (loopTrace next dur t0 n).2 < (loopTrace next dur t0 (n + 1)).1 := by
  simp only [loopTrace]
  exact hnext _

/-- Claim C1: the scheduler loop never starts a later invocation of the
command before an earlier one has returned — for any next-fire function
that always moves strictly forward and any invocation durations, every
earlier invocation's return instant lies strictly before every later
invocation's start instant, so invocations never overlap. -/
theorem scheduler_loop_no_overlap (next dur : Nat → Nat) (t0 : Nat)
    (hnext : ∀ t, t < next t) :
    ∀ i j, i < j →
      (loopTrace next dur t0 i).2 < (loopTrace next dur t0 j).1 := by
  intro i j hij
  induction j with
  | zero => omega
  | succ j ih =>
    have hend := loopTrace_end_lt_start next dur t0 hnext j
    rcases Nat.eq_or_lt_of_le (Nat.lt_succ_iff.mp hij) with h | h
    · subst h; exact hend
    · have h1 := ih h
      have h2 := loopTrace_start_le_end next dur t0 j
      omega

/-- Witness for C1 at a concrete next-fire function, duration and
indices. -/
theorem scheduler_loop_no_overlap_witness :
    (loopTrace (fun t => t + 1) (fun _ => 5) 0 0).2
      < (loopTrace (fun t => t + 1) (fun _ => 5) 0 1).1 :=
  scheduler_loop_no_overlap (fun t => t + 1) (fun _ => 5) 0
    (fun t => Nat.lt_succ_self t) 0 1 (by decide)

/-- Claim C2: when the fired command fails (a spawn failure or a
non-zero exit, both surfaced as an error from `cmd.Run()`), the
`AddFunc` closure calls `fatal`: it prints exactly one `Error:`-prefixed
diagnostic line and the whole process exits with status 1 — there is no
path that keeps the loop alive after a failed firing. -/
theorem failing_command_kills_process (cfg : Cfg) (msg : String) :
    (onFire cfg (Except.error msg)).exitCode = some 1 ∧
    (onFire cfg (Except.error msg)).stderrLines = [fatalLine msg] := by
  constructor <;> simp [onFire]

/-- Counterexample to claim C3 as stated: on a background-mode firing
(`cfgCron`, the relaunched instance) the command's standard input is
attached to the scheduler's own input stream, not disconnected — the
source sets `cmd.Stdin = os.Stdin` exactly when `-fg` is NOT given. -/
theorem stdin_disconnected_counterexample :
    ¬ (onFire cfgCron (Except.ok ())).cmdStdin = StreamAttach.null := by
  decide

/-- Claim C3 as amended: in foreground mode the fired command's standard
input is disconnected (the null device), while in background mode the
command inherits the scheduler process's own standard input — which, in
the intended two-phase flow, is itself the null device, because the
relaunch spawns the blocking instance with a disconnected standard
input. -/
theorem stdin_attachment_policy (cfg : Cfg) (r : Except String Unit) :
    (cfg.foreground = true → (onFire cfg r).cmdStdin = StreamAttach.null) ∧
    (cfg.foreground = false → (onFire cfg r).cmdStdin = StreamAttach.inherit) ∧
    (∀ (w : World) (ch : ChildSpawn), (runMain w cfg).child = some ch →
       ch.stdin = StreamAttach.null) := by
  refine ⟨?_, ?_, ?_⟩
  · intro h; cases r <;> simp [onFire, h]
  · intro h; cases r <;> simp [onFire, h]
  · intro w ch h
    have hs := mainBody_child_spec w cfg (markerIndicatesCron cfg.envMarker)
      (envAfterLookup cfg.envMarker) ch h
    rw [hs.1]

/-- Witness for C3 as amended: a foreground firing, a background firing,
and the relaunch child spawned by `runMain` on a concrete first-phase
invocation. -/
theorem stdin_attachment_policy_witness :
    (onFire cfgForegroundRun (Except.ok ())).cmdStdin = StreamAttach.null ∧
    (onFire cfgCron (Except.ok ())).cmdStdin = StreamAttach.inherit ∧
    ChildSpawn.stdin
      { argv0 := "cronolize", args := ["* * * * *", "echo hi"],
        envMarker := some envVarValueExpected, stdin := .null,
        stdout := .null, stderr := .null, waited := false }
      = StreamAttach.null :=
  ⟨(stdin_attachment_policy cfgForegroundRun (Except.ok ())).1 (by rfl),
   (stdin_attachment_policy cfgCron (Except.ok ())).2.1 (by rfl),
   (stdin_attachment_policy cfgRelaunch (Except.ok ())).2.2 wAny _ (by rfl)⟩

/-- Soundness of the bounded minute-by-minute scan: when it returns an
instant, that instant is strictly after the reference, matches the
expression, and no instant strictly between them matches. -/
theorem nextAux_sound (s : RecurrenceSpec) :
    ∀ fuel t u, nextAux s t fuel = some u →
      t < u ∧ matchesInstant s u = true ∧
        ∀ v, t < v → v < u → matchesInstant s v = false := by
  intro fuel
  induction fuel with
  | zero => intro t u h; simp [nextAux] at h
  | succ fuel ih =>
    intro t u h
    rw [nextAux] at h
    by_cases hm : matchesInstant s (t + 1) = true
    · rw [if_pos hm] at h
      have hu : t + 1 = u := by
        have := h
        simp at this
        exact this
      subst hu
      exact ⟨Nat.lt_succ_self t, hm, fun v hv1 hv2 => absurd hv2 (by omega)⟩
    · rw [if_neg hm] at h
      have hm' : matchesInstant s (t + 1) = false := by simpa using hm
      obtain ⟨h1, h2, h3⟩ := ih (t + 1) u h
      refine ⟨by omega, h2, ?_⟩
      intro v hv1 hv2
      by_cases hv : v = t + 1
      · rw [hv]; exact hm'
      · exact h3 v (by omega) hv2

/-- Claim C4: whenever `nextInstant` returns an instant for a recurrence
expression and a reference instant, the returned instant is strictly
later than the reference, it satisfies every restricted field (via
`matchesInstant`, including the day-of-month/day-of-week OR-rule), and
no instant strictly between the reference and the returned instant
satisfies all fields. -/
theorem nextInstant_first_match (s : RecurrenceSpec) (t u : Nat)
    (h : nextInstant s t = some u) :
    t < u ∧ matchesInstant s u = true ∧
      ∀ v, t < v → v < u → matchesInstant s v = false :=
  nextAux_sound s searchLimitMinutes t u h

/-- The recurrence expression `30 * * * *`: minute 30, every hour. -/
def specMin30 : RecurrenceSpec :=
  { minute := some [30], hour := none, dom := none, month := none, dow := none }

/-- Witness for C4: from the epoch instant, `30 * * * *` next fires at
minute 30, which is strictly later, matches, and has no earlier match
after the reference. -/
theorem nextInstant_first_match_witness :
    0 < 30 ∧ matchesInstant specMin30 30 = true ∧
      ∀ v, 0 < v → v < 30 → matchesInstant specMin30 v = false :=
  nextInstant_first_match specMin30 0 30 (by rfl)

/-- Claim C5: the relaunch marker is read once at startup and cleared
regardless of its value (the post-startup environment never carries it);
while the process blocks, the marker is still absent — so neither a
fired command nor anything else inherits it — and it is set again only
on the relaunch path, immediately before spawning the detached child,
which is the only child ever spawned and carries the marker. -/
theorem marker_lifecycle (w : World) (cfg : Cfg) :
    (runMain w cfg).envAfterStartup = none ∧
    ((runMain w cfg).blocking = true → (runMain w cfg).envFinal = none) ∧
    (∀ ch : ChildSpawn, (runMain w cfg).child = some ch →
       ch.envMarker = some envVarValueExpected ∧
       (runMain w cfg).envFinal = some envVarValueExpected) := by
  refine ⟨?_, ?_, ?_⟩
  · show (mainBody w cfg (markerIndicatesCron cfg.envMarker)
      (envAfterLookup cfg.envMarker)).envAfterStartup = none
    rw [mainBody_envAfterStartup, envAfterLookup_none]
  · intro hb
    show (mainBody w cfg (markerIndicatesCron cfg.envMarker)
      (envAfterLookup cfg.envMarker)).envFinal = none
    rw [mainBody_blocking_envFinal w cfg _ _ hb, envAfterLookup_none]
  · intro ch hch
    have hs := mainBody_child_spec w cfg (markerIndicatesCron cfg.envMarker)
      (envAfterLookup cfg.envMarker) ch hch
    exact ⟨by rw [hs.1], hs.2⟩

/-- Witness for C5: the second-phase instance clears the marker it
inherited and blocks with it unset; the first-phase instance spawns its
child with the marker set. -/
theorem marker_lifecycle_witness :
    (runMain wAny cfgCron).envAfterStartup = none ∧
    (runMain wAny cfgCron).envFinal = none ∧
    ChildSpawn.envMarker
      { argv0 := "cronolize", args := ["* * * * *", "echo hi"],
        envMarker := some envVarValueExpected, stdin := .null,
        stdout := .null, stderr := .null, waited := false }
      = some envVarValueExpected :=
  ⟨(marker_lifecycle wAny cfgCron).1,
   (marker_lifecycle wAny cfgCron).2.1 (by rfl),
   ((marker_lifecycle wAny cfgRelaunch).2.2 _ (by rfl)).1⟩

/-- Claim C6: in the relaunch branch (two arguments, no flag conflict,
no `-fg`, no marker, log open and parse and `Setenv` and `Start` all
succeed), the process spawns a detached copy of itself — same program
path, same raw arguments, marker in its environment, all three standard
streams on the null device, not waited for — prints the child's PID
unless `-q` was given, and exits with status 0. -/
theorem relaunch_branch_behavior (w : World) (cfg : Cfg) (pid : Nat)
    (fl : OpenFlags) (p : String)
    (hA : cfg.args.length = 2)
    (hB : (cfg.hasLogFlag && cfg.hasForegroundFlag) = false)
    (hFg : cfg.foreground = false)
    (hM : markerIndicatesCron cfg.envMarker = false)
    (hLS : logSection w cfg = .opened fl p)
    (hP : w.parseSpec (cfg.args.headD "") = Except.ok ())
    (hS : w.setenvResult = Except.ok ())
    (hC : w.startChild = Except.ok pid) :
    (runMain w cfg).child
      = some { argv0 := cfg.argv0, args := cfg.osArgs,
               envMarker := some envVarValueExpected, stdin := .null,
               stdout := .null, stderr := .null, waited := false } ∧
    (runMain w cfg).exitCode = some 0 ∧
    (runMain w cfg).stdoutLines = (if cfg.quiet then [] else [pidLine pid]) := by
  rw [List.headD_eq_head?] at hP
  simp [runMain, mainBody, hA, hB, hFg, hM, hLS, hP, hS, hC]

/-- Witness for C6 at a concrete first-phase invocation where every
external call succeeds. -/
theorem relaunch_branch_behavior_witness :
    (runMain wAny cfgRelaunch).child
      = some { argv0 := "cronolize", args := ["* * * * *", "echo hi"],
               envMarker := some envVarValueExpected, stdin := .null,
               stdout := .null, stderr := .null, waited := false } ∧
    (runMain wAny cfgRelaunch).exitCode = some 0 ∧
    (runMain wAny cfgRelaunch).stdoutLines
      = (if cfgRelaunch.quiet then [] else [pidLine 4242]) :=
  relaunch_branch_behavior wAny cfgRelaunch 4242 (openFlagsFor false)
    "/dev/null" (by rfl) (by rfl) (by rfl) (by rfl) (by rfl) (by rfl)
    (by rfl) (by rfl)

/-- Claim C7: passing both `-log` and `-fg` makes the process exit with
status 1 after reporting a usage diagnostic, before the log-file section
is entered, before any open is attempted, before the cron entry is
registered and before any blocking. -/
theorem both_flags_rejected (w : World) (cfg : Cfg)
    (hL : cfg.hasLogFlag = true) (hF : cfg.hasForegroundFlag = true) :
    (runMain w cfg).exitCode = some 1 ∧
    (runMain w cfg).stderrLines ≠ [] ∧
    (runMain w cfg).logSectionEntered = false ∧
    (runMain w cfg).fileOpenFlags = none ∧
    (runMain w cfg).scheduled = false ∧
    (runMain w cfg).blocking = false := by
  by_cases h : cfg.args.length = 2
  · simp [runMain, mainBody, h, hL, hF, baseOutcome]
  · simp [runMain, mainBody, h, baseOutcome, usageHelpLines]

/-- Witness for C7 at a concrete invocation passing both flags. -/
theorem both_flags_rejected_witness :
    (runMain wAny cfgBothFlags).exitCode = some 1 ∧
    (runMain wAny cfgBothFlags).stderrLines ≠ [] ∧
    (runMain wAny cfgBothFlags).logSectionEntered = false ∧
    (runMain wAny cfgBothFlags).fileOpenFlags = none ∧
    (runMain wAny cfgBothFlags).scheduled = false ∧
    (runMain wAny cfgBothFlags).blocking = false :=
  both_flags_rejected wAny cfgBothFlags (by rfl) (by rfl)

/-- Counterexample to claim C8 as stated: the wrong-argument-count usage
error is a startup-fatal condition (exit status 1, no blocking), yet it
does not print a one-line diagnostic — it prints the multi-chunk help
text. -/
theorem one_line_diagnostic_counterexample :
    (runMain wAny cfgNoArgs).exitCode = some 1 ∧
    (runMain wAny cfgNoArgs).blocking = false ∧
    ¬ (runMain wAny cfgNoArgs).stderrLines.length = 1 := by
  refine ⟨by rfl, by rfl, by decide⟩

/-- Claim C8 as amended: every startup-fatal condition makes the process
exit with status 1 before entering any blocking phase; the
`-log`/`-fg` combination usage error, the log-file open error, and the
recurrence parse error each print exactly one diagnostic line (the
latter two with the leading `Error:` marker, the combination error with
a leading `Syntax error:` marker), while the wrong-argument-count usage
error prints the multi-chunk help text instead of a one-line
diagnostic. -/
theorem startup_fatal_policy (w : World) (cfg : Cfg) :
    ((runMain w cfg).exitCode = some 1 → (runMain w cfg).blocking = false) ∧
    (usageHelpLines cfg.argv0).length = 6 ∧
    (cfg.args.length ≠ 2 →
       (runMain w cfg).exitCode = some 1 ∧
       (runMain w cfg).stderrLines = usageHelpLines cfg.argv0) ∧
    (cfg.args.length = 2 → cfg.hasLogFlag = true → cfg.hasForegroundFlag = true →
       (runMain w cfg).exitCode = some 1 ∧
       (runMain w cfg).stderrLines = [combineErrMsg]) ∧
    (∀ fl msg, cfg.args.length = 2 →
       (cfg.hasLogFlag && cfg.hasForegroundFlag) = false →
       logSection w cfg = .fatalOpen fl msg →
       (runMain w cfg).exitCode = some 1 ∧
       (runMain w cfg).stderrLines = [fatalLine msg]) ∧
    (∀ fl p msg, cfg.args.length = 2 →
       (cfg.hasLogFlag && cfg.hasForegroundFlag) = false →
       logSection w cfg = .opened fl p →
       w.parseSpec (cfg.args.headD "") = Except.error msg →
       (runMain w cfg).exitCode = some 1 ∧
       (runMain w cfg).stderrLines = [fatalLine msg]) := by
  refine ⟨?_, by rfl, ?_, ?_, ?_, ?_⟩
  · exact mainBody_exit1_not_blocking w cfg (markerIndicatesCron cfg.envMarker)
      (envAfterLookup cfg.envMarker)
  · intro h
    simp [runMain, mainBody, h, baseOutcome]
  · intro h1 h2 h3
    simp [runMain, mainBody, h1, h2, h3, baseOutcome]
  · intro fl msg h1 h2 hLS
    simp [runMain, mainBody, h1, h2, hLS, baseOutcome]
  · intro fl p msg h1 h2 hLS hP
    rw [List.headD_eq_head?] at hP
    simp [runMain, mainBody, h1, h2, hLS, hP, baseOutcome]

/-- Witness for C8 as amended: the four startup-fatal paths at concrete
invocations — missing arguments, both flags, failing log-file open, and
failing parse. -/
theorem startup_fatal_policy_witness :
    ((runMain wAny cfgNoArgs).exitCode = some 1 ∧
       (runMain wAny cfgNoArgs).stderrLines = usageHelpLines "cronolize") ∧
    ((runMain wAny cfgBothFlags).exitCode = some 1 ∧
       (runMain wAny cfgBothFlags).stderrLines = [combineErrMsg]) ∧
    ((runMain wOpenErr cfgRelaunch).exitCode = some 1 ∧
       (runMain wOpenErr cfgRelaunch).stderrLines
         = [fatalLine "open failed"]) ∧
    ((runMain wParseErr cfgRelaunch).exitCode = some 1 ∧
       (runMain wParseErr cfgRelaunch).stderrLines
         = [fatalLine "bad spec"]) ∧
    (runMain wAny cfgNoArgs).blocking = false :=
  ⟨(startup_fatal_policy wAny cfgNoArgs).2.2.1 (by decide),
   (startup_fatal_policy wAny cfgBothFlags).2.2.2.1 (by rfl) (by rfl) (by rfl),
   (startup_fatal_policy wOpenErr cfgRelaunch).2.2.2.2.1
     (openFlagsFor false) "open failed" (by rfl) (by rfl) (by rfl),
   (startup_fatal_policy wParseErr cfgRelaunch).2.2.2.2.2
     (openFlagsFor false) "/dev/null" "bad spec" (by rfl) (by rfl) (by rfl)
     (by rfl),
   (startup_fatal_policy wAny cfgNoArgs).1 (by rfl)⟩

/-- Claim C9: a recurrence-expression parse error is fatal before the
blocking phase and before the relaunch — whatever the mode, the run
exits with status 1, never spawns a child, never registers the cron
entry and never blocks. -/
theorem parse_error_aborts_first_phase (w : World) (cfg : Cfg) (msg : String)
    (hP : w.parseSpec (cfg.args.headD "") = Except.error msg) :
    (runMain w cfg).exitCode = some 1 ∧
    (runMain w cfg).child = none ∧
    (runMain w cfg).blocking = false ∧
    (runMain w cfg).scheduled = false := by
  simp only [runMain, mainBody]
  repeat' split
  all_goals simp_all [baseOutcome]

/-- Witness for C9: a concrete background first-phase invocation whose
expression fails to parse. -/
theorem parse_error_aborts_first_phase_witness :
    (runMain wParseErr cfgRelaunch).exitCode = some 1 ∧
    (runMain wParseErr cfgRelaunch).child = none ∧
    (runMain wParseErr cfgRelaunch).blocking = false ∧
    (runMain wParseErr cfgRelaunch).scheduled = false :=
  parse_error_aborts_first_phase wParseErr cfgRelaunch "bad spec" (by rfl)

/-- Claim C10: in background mode the first-phase process itself opens
the log file with create (and truncate exactly when `-truncate` is
given), closes it again before relaunching instead of redirecting to
it; an open failure exits with status 1 before any child is spawned;
and the relaunched (marker-carrying) run attempts the open with the very
same flags, so with `-truncate` the file is truncated by parent and
child alike. -/
theorem background_parent_log_handling (w : World) (cfg : Cfg)
    (hA : cfg.args.length = 2)
    (hB : (cfg.hasLogFlag && cfg.hasForegroundFlag) = false)
    (hFg : cfg.foreground = false)
    (hM : markerIndicatesCron cfg.envMarker = false)
    (hE : (w.evalSymlinks (w.cleanPath cfg.logfile)).isFailed = false) :
    (runMain w cfg).fileOpenFlags = some (openFlagsFor cfg.truncateLog) ∧
    (openFlagsFor cfg.truncateLog).create = true ∧
    (openFlagsFor cfg.truncateLog).trunc = cfg.truncateLog ∧
    (∀ fl p, logSection w cfg = .opened fl p →
       (runMain w cfg).fileClosedBeforeRelaunch = true ∧
       (runMain w cfg).redirectedToLog = false) ∧
    (∀ fl msg, logSection w cfg = .fatalOpen fl msg →
       (runMain w cfg).exitCode = some 1 ∧
       (runMain w cfg).child = none) ∧
    (runMain w { cfg with envMarker := some envVarValueExpected }).fileOpenFlags
      = some (openFlagsFor cfg.truncateLog) := by
  refine ⟨?_, ?_, ?_, ?_, ?_, ?_⟩
  · exact mainBody_openflags w cfg _ _ hA hB hFg hE
  · cases h : cfg.truncateLog <;> simp [openFlagsFor]
  · cases h : cfg.truncateLog <;> simp [openFlagsFor, h]
  · intro fl p hLS
    simp only [runMain, mainBody, hA, hB, hLS, hM]
    repeat' split
    all_goals simp_all [baseOutcome]
  · intro fl msg hLS
    simp [runMain, mainBody, hA, hB, hLS, baseOutcome]
  · exact mainBody_openflags w { cfg with envMarker := some envVarValueExpected }
      _ _ hA hB hFg hE

/-- Witness for C10: concrete first-phase and second-phase invocations
with a succeeding open, and a first-phase invocation with a failing
open. -/
theorem background_parent_log_handling_witness :
    (runMain wAny cfgRelaunch).fileOpenFlags = some (openFlagsFor false) ∧
    (runMain wAny cfgRelaunch).fileClosedBeforeRelaunch = true ∧
    (runMain wAny cfgRelaunch).redirectedToLog = false ∧
    (runMain wOpenErr cfgRelaunch).exitCode = some 1 ∧
    (runMain wOpenErr cfgRelaunch).child = none ∧
    (runMain wAny cfgCron).fileOpenFlags = some (openFlagsFor false) := by
  have h1 := background_parent_log_handling wAny cfgRelaunch (by rfl) (by rfl)
    (by rfl) (by rfl) (by rfl)
  have h2 := background_parent_log_handling wOpenErr cfgRelaunch (by rfl)
    (by rfl) (by rfl) (by rfl) (by rfl)
  exact ⟨h1.1,
    (h1.2.2.2.1 (openFlagsFor false) "/dev/null" (by rfl)).1,
    (h1.2.2.2.1 (openFlagsFor false) "/dev/null" (by rfl)).2,
    (h2.2.2.2.2.1 (openFlagsFor false) "open failed" (by rfl)).1,
    (h2.2.2.2.2.1 (openFlagsFor false) "open failed" (by rfl)).2,
    h1.2.2.2.2.2⟩

end Cronolize
